import Mathlib

/-!
Verification of the intent-routing and parameter-extraction pipeline of the
agent router (source file: the Gemini agent router module).

The pipeline is shallowly embedded: pure TypeScript functions become Lean
functions; the external collaborators (the text-completion service, the JSON
parser of the runtime, the HTTP client, the environment variables and the
clock) become an explicit environment record `Env`, and external calls made
by a run are reified as an explicit trace (`List ExtCall`).  JavaScript
numbers are modelled as rationals; every count and division in the claims
involves only small integers, where the two semantics agree on all the
comparisons at issue.  JavaScript strings are modelled as Lean strings in
ASCII semantics (the keyword lists and country aliases are all ASCII);
Unicode-specific case mapping is not modelled.
-/

namespace SharkHelix

/-- Intent labels returned by the classifier. -/
inductive Intent where
  | covid
  | churn
  | unknown
deriving DecidableEq, Repr

/-- Atomic JSON/JavaScript values appearing in parameter sets and prediction
results.  The specification restricts ParameterSet fields to string, number,
boolean or null, so nested objects and arrays are not needed. -/
inductive JsValue where
  | null
  | bool (b : Bool)
  | num (q : ℚ)
  | str (s : String)
deriving DecidableEq, Repr

/-- A ParameterSet / PredictionResult: an open, insertion-ordered mapping
from field names to values, as a JavaScript object. -/
abbrev ParamSet := List (String × JsValue)

/-- Property read on a JavaScript object: first entry with the given key. -/
def getField : ParamSet → String → Option JsValue
  | [], _ => none
  | (k, v) :: rest, key => if k = key then some v else getField rest key

/-- Property write on a JavaScript object: overwrite the value at the first
entry with the key when present, otherwise append the new entry at the end,
as JS assignment does on its unique-key objects. -/
def setField : ParamSet → String → JsValue → ParamSet
  | [], key, v => [(key, v)]
  | (k0, v0) :: rest, key, v =>
    if k0 = key then (k0, v) :: rest
    else (k0, v0) :: setField rest key v

/-- JavaScript truthiness test on an optional field value: absent fields and
the values null, false, 0 and the empty string are falsy. -/
def jsFalsy : Option JsValue → Bool
  | none => true
  | some JsValue.null => true
  | some (JsValue.bool b) => !b
  | some (JsValue.num q) => decide (q = 0)
  | some (JsValue.str s) => decide (s = "")

/-- JavaScript string interpolation of a field value.  Exact decimal
formatting of non-integer numbers is not modelled; the claims only evaluate
this on strings and integers. -/
def jsDisplay : JsValue → String
  | JsValue.null => "null"
  | JsValue.bool true => "true"
  | JsValue.bool false => "false"
  | JsValue.num q => if q.den = 1 then toString q.num else toString q
  | JsValue.str s => s

/-- Math.min on two rationals (NaN behavior is irrelevant here). -/
def jsMin (a b : ℚ) : ℚ := if a ≤ b then a else b

/-- ASCII lower-casing of a string, as query.toLowerCase() on ASCII input. -/
def jsLower (s : String) : List Char := s.toList.map Char.toLower

/-- cs starts with pat (character-wise). -/
def charsStartWith : List Char → List Char → Bool
  | _, [] => true
  | [], _ :: _ => false
  | c :: cs, p :: ps => c = p && charsStartWith cs ps

/-- Substring test, as String.prototype.includes. -/
def charsInclude : List Char → List Char → Bool
  | [], pat => pat.isEmpty
  | c :: rest, pat => charsStartWith (c :: rest) pat || charsInclude rest pat

/-- The fixed covid-domain keyword list of classifyIntent. -/
def covidKeywords : List String :=
  ["covid", "coronavirus", "pandemic", "virus", "infection",
   "cases", "deaths", "vaccination", "testing", "outbreak",
   "epidemic", "disease", "health", "country", "spread"]

/-- The fixed churn-domain keyword list of classifyIntent. -/
def churnKeywords : List String :=
  ["churn", "customer", "leave", "cancel", "subscription",
   "billing", "service", "complaint", "support", "contract",
   "retention", "loyalty", "telecom", "internet", "phone"]

/-- covidKeywords.filter(kw => queryLower.includes(kw)).length -/
def covidMatchCount (queryLower : List Char) : ℕ :=
  (covidKeywords.filter (fun kw => charsInclude queryLower kw.toList)).length

/-- churnKeywords.filter(kw => queryLower.includes(kw)).length -/
def churnMatchCount (queryLower : List Char) : ℕ :=
  (churnKeywords.filter (fun kw => charsInclude queryLower kw.toList)).length

/-- classifyIntent: keyword-count intent classification with the smoothed
confidence formula, as in the source. -/
def classifyIntent (query : String) : Intent × ℚ :=
  if covidMatchCount (jsLower query) > churnMatchCount (jsLower query) ∧
      covidMatchCount (jsLower query) > 0 then
    (Intent.covid,
      jsMin ((covidMatchCount (jsLower query) : ℚ) /
        ((covidMatchCount (jsLower query) : ℚ) + (churnMatchCount (jsLower query) : ℚ) + 1)) 1)
  else if churnMatchCount (jsLower query) > 0 then
    (Intent.churn,
      jsMin ((churnMatchCount (jsLower query) : ℚ) /
        ((covidMatchCount (jsLower query) : ℚ) + (churnMatchCount (jsLower query) : ℚ) + 1)) 1)
  else
    (Intent.unknown, 0)

/-- Classifier contract as worded in the specification (section 4.1):
lower-case the query, count occurrences from the two fixed keyword lists as
substrings, then: covid when covid-count > churn-count and covid-count > 0,
with confidence min(covid-count / (covid-count + churn-count + 1), 1.0);
else churn when churn-count > 0, with the symmetric formula; else unknown
with confidence 0. -/
def classifyIntentSpec (query : String) : Intent × ℚ :=
  let c := covidMatchCount (jsLower query)
  let h := churnMatchCount (jsLower query)
  if c > h ∧ c > 0 then
    (Intent.covid, jsMin ((c : ℚ) / ((c : ℚ) + (h : ℚ) + 1)) 1)
  else if h > 0 then
    (Intent.churn, jsMin ((h : ℚ) / ((c : ℚ) + (h : ℚ) + 1)) 1)
  else
    (Intent.unknown, 0)


/-! ### Parameter-extraction fallback regexes

The three fallback regexes of the extractors are modelled as executable
leftmost-first scanners over the character list of the query, following the
JavaScript String.prototype.match semantics for a regex without the global
flag: positions are tried left to right and the first position admitting a
match wins, with greedy sub-patterns (greediness never forces backtracking
in these particular patterns, as noted at each definition). -/

/-- cs starts with the pattern chars ps, compared case-insensitively
(ASCII), as a regex with the i flag. -/
def ciStartsWithChars : List Char → List Char → Bool
  | _, [] => true
  | [], _ :: _ => false
  | c :: cs, p :: ps => c.toLower = p.toLower && ciStartsWithChars cs ps

/-- A regex word character: [A-Za-z0-9_]. -/
def wordChar (c : Char) : Bool := c.isAlphanum || c = '_'

/-- Numeric value of a digit run. -/
def digitsToNat (cs : List Char) : ℕ :=
  cs.foldl (fun a c => 10 * a + (c.toNat - 48)) 0

/-- Anchored match of the tenure pattern digits-whitespace-(month|months|mo)
with the i flag at the head of cs, returning the parsed capture group
(parseInt of the digit run).  The digit run is taken greedily: giving back
digits cannot help, since a digit is neither whitespace nor the letter m.
Because the alternative mo is present, the suffix test is a two-letter
case-insensitive prefix check. -/
def tenureHere (cs : List Char) : Option ℕ :=
  let ds := cs.takeWhile Char.isDigit
  if ds.isEmpty then none
  else
    match (cs.drop ds.length).dropWhile Char.isWhitespace with
    | a :: b :: _ => if a.toLower = 'm' ∧ b.toLower = 'o' then some (digitsToNat ds) else none
    | _ => none

/-- Leftmost-first scan for the tenure pattern. -/
def tenureSearch : List Char → Option ℕ
  | [] => none
  | c :: rest =>
    match tenureHere (c :: rest) with
    | some n => some n
    | none => tenureSearch rest

/-- query.match of the tenure regex, returning parseInt of capture group 1. -/
def tenureCapture (query : String) : Option ℕ := tenureSearch query.toList

/-- Anchored match of the charges pattern: an optional dollar sign, a digit
run, and an optional dot-digits fractional part, returning parseFloat of
capture group 1 as an exact rational.  The optional dollar sign needs no
backtracking: if a dollar sign is present the digits must follow it, and if
the digits are absent the position fails either way.  The optional trailing
(monthly|per month|/month) group of the primary-path variant of this regex
can match empty, so it changes neither the matched position nor capture
group 1, and both variants are modelled by this one scanner. -/
def chargesHere (cs : List Char) : Option ℚ :=
  let body := match cs with
    | '$' :: rest => rest
    | _ => cs
  let ds := body.takeWhile Char.isDigit
  if ds.isEmpty then none
  else
    match body.drop ds.length with
    | '.' :: t =>
      let fs := t.takeWhile Char.isDigit
      if fs.isEmpty then some ((digitsToNat ds : ℚ))
      else some ((digitsToNat (ds ++ fs) : ℚ) / ((10 : ℚ) ^ fs.length))
    | _ => some ((digitsToNat ds : ℚ))

/-- Leftmost-first scan for the charges pattern. -/
def chargesSearch : List Char → Option ℚ
  | [] => none
  | c :: rest =>
    match chargesHere (c :: rest) with
    | some x => some x
    | none => chargesSearch rest

/-- query.match of the charges regex, returning parseFloat of capture
group 1. -/
def chargesCapture (query : String) : Option ℚ := chargesSearch query.toList

/-- The fixed country name/alias alternation of the covid extractor
fallback regex, in source order. -/
def countryAliases : List String :=
  ["USA", "US", "United States", "America", "India", "China", "Brazil",
   "UK", "United Kingdom", "Canada", "Australia", "Germany", "France",
   "Italy", "Spain", "Japan", "Russia"]

/-- Anchored match of the word-bounded country alternation at the head of
cs: alternatives are tried in source order; each requires a case-insensitive
prefix match followed by a word boundary (every alias ends in a word
character, so the trailing boundary holds iff the next character is absent
or not a word character).  The capture is the matched text of the query,
not the alias spelling. -/
def aliasMatchAt (cs : List Char) : Option String :=
  (countryAliases.find? (fun a =>
    ciStartsWithChars cs a.toList &&
      (match cs.drop a.toList.length with
       | [] => true
       | d :: _ => !wordChar d))).map
    (fun a => String.mk (cs.take a.toList.length))

/-- Leftmost-first scan for the country alternation.  The leading word
boundary holds iff the previous character is absent or not a word character
(every alias starts with a word character); prevWord carries that state. -/
def aliasSearch : Bool → List Char → Option String
  | _, [] => none
  | prevWord, c :: rest =>
    match if prevWord then none else aliasMatchAt (c :: rest) with
    | some s => some s
    | none => aliasSearch (wordChar c) rest

/-- query.match of the country fallback regex, returning capture group 1
(the matched text, in the casing of the query). -/
def countryMatch (query : String) : Option String := aliasSearch false query.toList

/-! ### External collaborators and call traces -/

/-- A top-level JSON value, as produced by JSON.parse or by the HTTP client
body parser: an object, or a top-level primitive (string, number, boolean,
or the JSON null).  The distinction matters because the source applies the
JavaScript in operator to such results, which works on objects but throws a
TypeError on any primitive, and reads and assigns properties on them, which
throws on null and (for assignment, in the strict mode of a TypeScript
module) on the other primitives. -/
inductive JsTop where
  | obj (fields : ParamSet)
  | prim (v : JsValue)
deriving DecidableEq, Repr

/-- The outcome of one external call, as observed by the router code: the
text-completion calls yield the first-choice message content when it is a
string (modelled through to the typeof test), the runtime JSON parse yields
a top-level JSON value or throws, and the HTTP client yields the parsed
JSON body of a 2xx response or throws (network failure, non-2xx status and
timeout all surface as a thrown error).  One record fixes the behavior of
every collaborator for one request, together with the two base-URL
environment variables and the millisecond clock. -/
structure Env where
  covidExtractLLM : Except Unit (Option String)
  churnExtractLLM : Except Unit (Option String)
  synthLLM : Except Unit (Option String)
  jsonParse : String → Except Unit JsTop
  http : String → ParamSet → ℕ → Except Unit JsTop
  covidServiceUrlVar : Option String
  churnServiceUrlVar : Option String
  now : ℕ

/-- One reified external call made during a request: a text-completion call
at one of the three call sites, or an HTTP POST with its URL, JSON body and
timeout in milliseconds. -/
inductive ExtCall where
  | llmCovidExtract
  | llmChurnExtract
  | llmSynth
  | httpPost (url : String) (body : ParamSet) (timeoutMs : ℕ)
deriving DecidableEq, Repr

/-- cleanJsonResponse: trim, then inside the two startsWith branches strip
a leading code fence (optionally tagged json) with its trailing whitespace
and a trailing code fence with the contiguous whitespace before it, and
trim again.  A string with no leading fence is left unchanged by the
replace calls. -/
def cleanJsonResponse (content : String) : String :=
  let cleaned := content.trim
  let cleaned :=
    if cleaned.startsWith "\x60\x60\x60json" then
      ((cleaned.drop 7).trimLeft.dropRight
        (if ((cleaned.drop 7).trimLeft).endsWith "\x60\x60\x60" then 3 else 0)).trimRight
    else if cleaned.startsWith "\x60\x60\x60" then
      ((cleaned.drop 3).trimLeft.dropRight
        (if ((cleaned.drop 3).trimLeft).endsWith "\x60\x60\x60" then 3 else 0)).trimRight
    else cleaned
  cleaned.trim

/-- The test guarding the country fallback of the covid extractor: the
country_name field is falsy or is the literal string null. -/
def covidCountryMissing (params : ParamSet) : Bool :=
  jsFalsy (getField params "country_name") ||
    getField params "country_name" == some (JsValue.str "null")

/-- The JavaScript emptiness guard of the orchestrator applied to a
primitive extraction result: a falsy primitive fails the truthiness half,
and a truthy primitive other than a non-empty string has no own enumerable
keys, so Object.keys gives length 0.  Only a non-empty string passes the
guard (its keys are its character indices) and reaches the in operator. -/
def primExitsGuard : JsValue → Bool
  | JsValue.str s => decide (s = "")
  | _ => true

/-- The try block of extractCovidParameters: one completion call, the
typeof-string test on the content, the fence cleanup, the JSON parse, and
the in-try country fallback.  Any throw escapes to the catch clause.  On a
parsed top-level primitive: reading country_name on the JSON null throws
(caught); on any other primitive the field reads as undefined (falsy), so
the fallback condition holds, and a regex hit then assigns to a property of
a primitive, which throws in the strict mode of a TypeScript module
(caught), while a miss returns the primitive itself. -/
def extractCovidParametersTry (env : Env) (query : String) : Except Unit JsTop :=
  match env.covidExtractLLM with
  | Except.error e => Except.error e
  | Except.ok contentOpt =>
    let content := contentOpt.getD "\x7b\x7d"
    match env.jsonParse (cleanJsonResponse content) with
    | Except.error e => Except.error e
    | Except.ok (JsTop.obj params) =>
      if covidCountryMissing params then
        match countryMatch query with
        | some c => Except.ok (JsTop.obj (setField params "country_name" (JsValue.str c)))
        | none => Except.ok (JsTop.obj params)
      else Except.ok (JsTop.obj params)
    | Except.ok (JsTop.prim JsValue.null) => Except.error ()
    | Except.ok (JsTop.prim v) =>
      match countryMatch query with
      | some _ => Except.error ()
      | none => Except.ok (JsTop.prim v)

/-- The catch clause of extractCovidParameters: the country regex fallback
alone, or an empty parameter set. -/
def covidCatchFallback (query : String) : ParamSet :=
  match countryMatch query with
  | some c => [("country_name", JsValue.str c)]
  | none => []

/-- extractCovidParameters: the try block with its catch clause.  The
completion call is issued in every case, so the trace always records it. -/
def extractCovidParameters (env : Env) (query : String) : JsTop × List ExtCall :=
  match extractCovidParametersTry env query with
  | Except.ok t => (t, [ExtCall.llmCovidExtract])
  | Except.error _ => (JsTop.obj (covidCatchFallback query), [ExtCall.llmCovidExtract])

/-- The try block of extractChurnParameters: one completion call, content
handling and JSON parse as in the covid extractor, then the in-try tenure
and charges regex fallbacks on falsy fields.  A parsed top-level primitive
behaves as in the covid extractor: null throws on the first field read
(caught); otherwise both fields read as undefined, the first regex hit
triggers a throwing assignment to a primitive property (caught), and with
neither pattern present the primitive is returned unchanged. -/
def extractChurnParametersTry (env : Env) (query : String) : Except Unit JsTop :=
  match env.churnExtractLLM with
  | Except.error e => Except.error e
  | Except.ok contentOpt =>
    let content := contentOpt.getD "\x7b\x7d"
    match env.jsonParse (cleanJsonResponse content) with
    | Except.error e => Except.error e
    | Except.ok (JsTop.obj params) =>
      let params1 :=
        if jsFalsy (getField params "tenure_months") then
          match tenureCapture query with
          | some n => setField params "tenure_months" (JsValue.num (n : ℚ))
          | none => params
        else params
      let params2 :=
        if jsFalsy (getField params1 "monthly_charges") then
          match chargesCapture query with
          | some x => setField params1 "monthly_charges" (JsValue.num x)
          | none => params1
        else params1
      Except.ok (JsTop.obj params2)
    | Except.ok (JsTop.prim JsValue.null) => Except.error ()
    | Except.ok (JsTop.prim v) =>
      match tenureCapture query with
      | some _ => Except.error ()
      | none =>
        match chargesCapture query with
        | some _ => Except.error ()
        | none => Except.ok (JsTop.prim v)

/-- The catch clause of extractChurnParameters: tenure and charges regex
fallbacks on a fresh empty object, fields in assignment order. -/
def churnCatchFallback (query : String) : ParamSet :=
  let base : ParamSet :=
    match tenureCapture query with
    | some n => [("tenure_months", JsValue.num (n : ℚ))]
    | none => []
  match chargesCapture query with
  | some x => base ++ [("monthly_charges", JsValue.num x)]
  | none => base

/-- extractChurnParameters: the try block with its catch clause. -/
def extractChurnParameters (env : Env) (query : String) : JsTop × List ExtCall :=
  match extractChurnParametersTry env query with
  | Except.ok t => (t, [ExtCall.llmChurnExtract])
  | Except.error _ => (JsTop.obj (churnCatchFallback query), [ExtCall.llmChurnExtract])

/-- process.env.X || fixed-default: the JavaScript or-else treats an unset
variable and an empty string alike. -/
def jsOrDefault (v : Option String) (d : String) : String :=
  match v with
  | none => d
  | some s => if s = "" then d else s

/-- The URL of the one POST issued by callCovidService. -/
def covidPostUrl (env : Env) : String :=
  jsOrDefault env.covidServiceUrlVar "http://localhost:8000" ++ "/predict/covid"

/-- The URL of the one POST issued by callChurnService. -/
def churnPostUrl (env : Env) : String :=
  jsOrDefault env.churnServiceUrlVar "http://localhost:8001" ++ "/predict/churn"

/-- callCovidService: one POST with a 30000 ms timeout; the parsed body on
success, the fixed error object on any failure, never a thrown error. -/
def callCovidService (env : Env) (parameters : ParamSet) : JsTop × List ExtCall :=
  match env.http (covidPostUrl env) parameters 30000 with
  | Except.ok data => (data, [ExtCall.httpPost (covidPostUrl env) parameters 30000])
  | Except.error _ =>
    (JsTop.obj [("error", JsValue.str "Failed to get COVID prediction")],
      [ExtCall.httpPost (covidPostUrl env) parameters 30000])

/-- callChurnService: one POST with a 30000 ms timeout; the parsed body on
success, the fixed error object on any failure, never a thrown error. -/
def callChurnService (env : Env) (parameters : ParamSet) : JsTop × List ExtCall :=
  match env.http (churnPostUrl env) parameters 30000 with
  | Except.ok data => (data, [ExtCall.httpPost (churnPostUrl env) parameters 30000])
  | Except.error _ =>
    (JsTop.obj [("error", JsValue.str "Failed to get churn prediction")],
      [ExtCall.httpPost (churnPostUrl env) parameters 30000])

/-- synthesizeResponse: the in-operator test on the prediction runs before
the try clause, so a primitive prediction body throws an uncaught
TypeError, modelled as the error outcome.  On an object, an error-bearing
prediction short-circuits to the templated error string with no external
call; otherwise one completion call whose string content is returned, with
the fixed fallback string for non-string content and the fixed apology
string when the call throws.  The intent argument only selects the prompt
wording in the source, which an Env behavior already absorbs. -/
def synthesizeResponse (env : Env) (_intent : Intent) (prediction : JsTop) :
    Except Unit (String × List ExtCall) :=
  match prediction with
  | JsTop.prim _ => Except.error ()
  | JsTop.obj pred =>
    if (getField pred "error").isSome then
      Except.ok
        ("I encountered an error: " ++ jsDisplay ((getField pred "error").getD JsValue.null),
          [])
    else
      match env.synthLLM with
      | Except.ok contentOpt =>
        Except.ok (contentOpt.getD "Unable to synthesize response", [ExtCall.llmSynth])
      | Except.error _ =>
        Except.ok ("I encountered an error while processing your request.",
          [ExtCall.llmSynth])

/-- The AgentResponse record returned to the caller on success. -/
structure AgentResponse where
  response : String
  intent : Intent
  confidence : ℚ
  modelUsed : Option String
  rawPrediction : Option JsTop
deriving DecidableEq, Repr

/-- The fixed clarification message of the unknown/low-confidence branch. -/
def clarifyMessage : String :=
  "I\x27m not sure if you\x27re asking about COVID-19 or customer churn. Could you please clarify?"

/-- The AgentResponse of the clarification branch. -/
def clarifyResponse : AgentResponse :=
  { response := clarifyMessage
    intent := Intent.unknown
    confidence := 0
    modelUsed := none
    rawPrediction := none }

/-- The need-more-information message of the covid branch. -/
def covidNeedInfoMessage : String :=
  "I need at least some information to make a COVID-19 prediction. Please provide country name or case statistics."

/-- The need-more-information message of the churn branch. -/
def churnNeedInfoMessage : String :=
  "I need at least some information about the customer to assess churn risk. Please provide details like tenure, monthly charges, or contract type."

/-- The default injection of the covid branch: country_name set to Unknown
when the key is absent from the extracted parameter object. -/
def covidDefaulted (params : ParamSet) : ParamSet :=
  if (getField params "country_name").isSome then params
  else setField params "country_name" (JsValue.str "Unknown")

/-- The default injection of the churn branch: customer_id set to a
GUEST-timestamp identifier when the key is absent. -/
def churnDefaulted (env : Env) (params : ParamSet) : ParamSet :=
  if (getField params "customer_id").isSome then params
  else setField params "customer_id" (JsValue.str ("GUEST_" ++ toString env.now))

/-- The agent query mutation: classify, guard, extract, inject defaults,
call the prediction service, synthesize, and assemble the AgentResponse,
with the trace of external calls in order.  An object extraction result is
always truthy, so only the length test of the emptiness guard applies to
it; a primitive extraction result either exits at that guard or reaches
the in operator, which throws an uncaught TypeError, the error outcome.
The same operator applied to a primitive prediction body throws inside
synthesizeResponse, likewise uncaught here.  The final else branch is the
churn branch: the guard has excluded unknown. -/
def agentQuery (env : Env) (query : String) : Except Unit AgentResponse × List ExtCall :=
  if (classifyIntent query).1 = Intent.unknown ∨ (classifyIntent query).2 < 3/10 then
    (Except.ok clarifyResponse, [])
  else if (classifyIntent query).1 = Intent.covid then
    match (extractCovidParameters env query).1 with
    | JsTop.prim v =>
      if primExitsGuard v then
        (Except.ok
          { response := covidNeedInfoMessage
            intent := Intent.covid
            confidence := (classifyIntent query).2
            modelUsed := none
            rawPrediction := none }, (extractCovidParameters env query).2)
      else
        (Except.error (), (extractCovidParameters env query).2)
    | JsTop.obj params =>
      if params = [] then
        (Except.ok
          { response := covidNeedInfoMessage
            intent := Intent.covid
            confidence := (classifyIntent query).2
            modelUsed := none
            rawPrediction := none }, (extractCovidParameters env query).2)
      else
        match synthesizeResponse env Intent.covid
            (callCovidService env (covidDefaulted params)).1 with
        | Except.error e =>
          (Except.error e,
            (extractCovidParameters env query).2 ++
              (callCovidService env (covidDefaulted params)).2)
        | Except.ok out =>
          (Except.ok
            { response := out.1
              intent := Intent.covid
              confidence := (classifyIntent query).2
              modelUsed := some "COVID-19 Prediction Model"
              rawPrediction := some (callCovidService env (covidDefaulted params)).1 },
            (extractCovidParameters env query).2 ++
              (callCovidService env (covidDefaulted params)).2 ++ out.2)
  else
    match (extractChurnParameters env query).1 with
    | JsTop.prim v =>
      if primExitsGuard v then
        (Except.ok
          { response := churnNeedInfoMessage
            intent := Intent.churn
            confidence := (classifyIntent query).2
            modelUsed := none
            rawPrediction := none }, (extractChurnParameters env query).2)
      else
        (Except.error (), (extractChurnParameters env query).2)
    | JsTop.obj params =>
      if params = [] then
        (Except.ok
          { response := churnNeedInfoMessage
            intent := Intent.churn
            confidence := (classifyIntent query).2
            modelUsed := none
            rawPrediction := none }, (extractChurnParameters env query).2)
      else
        match synthesizeResponse env Intent.churn
            (callChurnService env (churnDefaulted env params)).1 with
        | Except.error e =>
          (Except.error e,
            (extractChurnParameters env query).2 ++
              (callChurnService env (churnDefaulted env params)).2)
        | Except.ok out =>
          (Except.ok
            { response := out.1
              intent := Intent.churn
              confidence := (classifyIntent query).2
              modelUsed := some "Churn Prediction Model"
              rawPrediction := some (callChurnService env (churnDefaulted env params)).1 },
            (extractChurnParameters env query).2 ++
              (callChurnService env (churnDefaulted env params)).2 ++ out.2)

/-- The inbound endpoint with its input validation: the schema rejects the
empty query (the min(1) rule) before the handler runs, and an exception
thrown by the handler body propagates to the caller as an error. -/
def agentQueryEndpoint (env : Env) (query : String) :
    Except Unit (AgentResponse × List ExtCall) :=
  if query = "" then Except.error ()
  else
    match agentQuery env query with
    | (Except.ok r, calls) => Except.ok (r, calls)
    | (Except.error e, _) => Except.error e

/-- An environment in which every collaborator call throws, every
environment variable is unset, and the clock reads zero. -/
def envAllFail : Env :=
  { covidExtractLLM := Except.error ()
    churnExtractLLM := Except.error ()
    synthLLM := Except.error ()
    jsonParse := fun _ => Except.error ()
    http := fun _ _ _ => Except.error ()
    covidServiceUrlVar := none
    churnServiceUrlVar := none
    now := 0 }

/-- An environment in which the completion service answers, the JSON parse
yields a parameter object with only a country_name field, and every HTTP
call fails. -/
def envStub : Env :=
  { covidExtractLLM := Except.ok (some "stub")
    churnExtractLLM := Except.ok (some "stub")
    synthLLM := Except.ok (some "narrated")
    jsonParse := fun _ => Except.ok (JsTop.obj [("country_name", JsValue.str "France")])
    http := fun _ _ _ => Except.error ()
    covidServiceUrlVar := none
    churnServiceUrlVar := none
    now := 0 }

/-- An environment in which every HTTP call succeeds with an empty JSON
object body and the completion calls throw. -/
def envHttpOk : Env :=
  { covidExtractLLM := Except.error ()
    churnExtractLLM := Except.error ()
    synthLLM := Except.error ()
    jsonParse := fun _ => Except.error ()
    http := fun _ _ _ => Except.ok (JsTop.obj [])
    covidServiceUrlVar := none
    churnServiceUrlVar := none
    now := 0 }

/-- An environment in which the completion service answers and the JSON
parse yields the top-level string x, with every HTTP call failing. -/
def envPrimStr : Env :=
  { covidExtractLLM := Except.ok (some "stub")
    churnExtractLLM := Except.ok (some "stub")
    synthLLM := Except.ok (some "narrated")
    jsonParse := fun _ => Except.ok (JsTop.prim (JsValue.str "x"))
    http := fun _ _ _ => Except.error ()
    covidServiceUrlVar := none
    churnServiceUrlVar := none
    now := 0 }

end SharkHelix

namespace SharkHelix

/-! ### Shared classifier lemmas -/

/-- The three branches of classifyIntent, with the branch conditions resolved
in terms of the two keyword counts. -/
theorem classifyIntent_branches (q : String) :
    (churnMatchCount (jsLower q) < covidMatchCount (jsLower q) ∧
      classifyIntent q = (Intent.covid,
        jsMin ((covidMatchCount (jsLower q) : ℚ) /
          ((covidMatchCount (jsLower q) : ℚ) + (churnMatchCount (jsLower q) : ℚ) + 1)) 1)) ∨
    (covidMatchCount (jsLower q) ≤ churnMatchCount (jsLower q) ∧
      0 < churnMatchCount (jsLower q) ∧
      classifyIntent q = (Intent.churn,
        jsMin ((churnMatchCount (jsLower q) : ℚ) /
          ((covidMatchCount (jsLower q) : ℚ) + (churnMatchCount (jsLower q) : ℚ) + 1)) 1)) ∨
    (covidMatchCount (jsLower q) = 0 ∧ churnMatchCount (jsLower q) = 0 ∧
      classifyIntent q = (Intent.unknown, 0)) := by
  rcases Nat.lt_or_ge (churnMatchCount (jsLower q)) (covidMatchCount (jsLower q)) with h | h
  · left
    refine ⟨h, ?_⟩
    unfold classifyIntent
    rw [if_pos ⟨h, Nat.lt_of_le_of_lt (Nat.zero_le _) h⟩]
  · rcases Nat.eq_zero_or_pos (churnMatchCount (jsLower q)) with hn | hn
    · right; right
      have hm : covidMatchCount (jsLower q) = 0 := by omega
      refine ⟨hm, hn, ?_⟩
      unfold classifyIntent
      rw [if_neg (by rintro ⟨hc, _⟩; omega), if_neg (by omega)]
    · right; left
      refine ⟨h, hn, ?_⟩
      unfold classifyIntent
      rw [if_neg (by rintro ⟨hc, _⟩; omega), if_pos hn]

/-- The smoothed ratio is below one whenever the numerator is at most the
sum in the denominator. -/
theorem jsMin_ratio_lt_one (k m n : ℕ) (hk : k ≤ m + n) :
    jsMin ((k : ℚ) / ((m : ℚ) + (n : ℚ) + 1)) 1 < 1 := by
  have hpos : (0:ℚ) < (m : ℚ) + (n : ℚ) + 1 := by positivity
  have hlt : (k : ℚ) / ((m : ℚ) + (n : ℚ) + 1) < 1 := by
    rw [div_lt_one hpos]
    have hc : (k : ℚ) ≤ (m : ℚ) + (n : ℚ) := by exact_mod_cast hk
    linarith
  unfold jsMin
  split
  · exact hlt
  · next hle => exact absurd (le_of_lt hlt) hle

/-- On the covid branch the ratio is at least one half. -/
theorem half_le_jsMin (m n : ℕ) (h : n < m) :
    1/2 ≤ jsMin ((m : ℚ) / ((m : ℚ) + (n : ℚ) + 1)) 1 := by
  have hpos : (0:ℚ) < (m : ℚ) + (n : ℚ) + 1 := by positivity
  have hh : (1:ℚ)/2 ≤ (m : ℚ) / ((m : ℚ) + (n : ℚ) + 1) := by
    rw [div_le_div_iff₀ (by norm_num) hpos]
    have hc : (n : ℚ) + 1 ≤ (m : ℚ) := by exact_mod_cast Nat.succ_le_of_lt h
    linarith
  unfold jsMin
  split
  · exact hh
  · norm_num

/-- On the churn branch the ratio is at least one third. -/
theorem third_le_jsMin (m n : ℕ) (hmn : m ≤ n) (hn : 0 < n) :
    1/3 ≤ jsMin ((n : ℚ) / ((m : ℚ) + (n : ℚ) + 1)) 1 := by
  have hpos : (0:ℚ) < (m : ℚ) + (n : ℚ) + 1 := by positivity
  have hh : (1:ℚ)/3 ≤ (n : ℚ) / ((m : ℚ) + (n : ℚ) + 1) := by
    rw [div_le_div_iff₀ (by norm_num) hpos]
    have h1 : (m : ℚ) ≤ (n : ℚ) := by exact_mod_cast hmn
    have h2 : (1:ℚ) ≤ (n : ℚ) := by exact_mod_cast hn
    linarith
  unfold jsMin
  split
  · exact hh
  · norm_num

/-- The returned confidence is strictly below one on every branch. -/
theorem confidence_lt_one (q : String) : (classifyIntent q).2 < 1 := by
  rcases classifyIntent_branches q with ⟨_, heq⟩ | ⟨_, _, heq⟩ | ⟨_, _, heq⟩ <;> rw [heq]
  · exact jsMin_ratio_lt_one _ _ _ (Nat.le_add_right _ _)
  · exact jsMin_ratio_lt_one _ _ _ (Nat.le_add_left _ _)
  · norm_num

/-- A covid classification carries confidence at least one half. -/
theorem conf_half (q : String) (h : (classifyIntent q).1 = Intent.covid) :
    1/2 ≤ (classifyIntent q).2 := by
  rcases classifyIntent_branches q with ⟨hlt, heq⟩ | ⟨_, _, heq⟩ | ⟨_, _, heq⟩
  · rw [heq]
    exact half_le_jsMin _ _ hlt
  · rw [heq] at h
    simp at h
  · rw [heq] at h
    simp at h

/-- Any non-unknown classification carries confidence at least one third. -/
theorem conf_third (q : String) (h : (classifyIntent q).1 ≠ Intent.unknown) :
    1/3 ≤ (classifyIntent q).2 := by
  rcases classifyIntent_branches q with ⟨hlt, heq⟩ | ⟨hle, hpos, heq⟩ | ⟨_, _, heq⟩
  · rw [heq]
    calc (1:ℚ)/3 ≤ 1/2 := by norm_num
    _ ≤ _ := half_le_jsMin _ _ hlt
  · rw [heq]
    exact third_le_jsMin _ _ hle hpos
  · rw [heq] at h
    simp at h

/-- The clarification guard of the orchestrator is false for any
non-unknown classification. -/
theorem guard_false (q : String) (h : (classifyIntent q).1 ≠ Intent.unknown) :
    ¬ ((classifyIntent q).1 = Intent.unknown ∨ (classifyIntent q).2 < 3/10) := by
  rintro (hu | hc)
  · exact h hu
  · have h3 := conf_third q h
    linarith

/-! ### Claims C1, C2, C3, C9, C10 -/

/-- C1: for every query the classifier lower-cases it, counts covid and
churn keyword substring matches independently, and returns exactly what the
spec formula (classifyIntentSpec) prescribes; in particular any query with
covid-count 3 and churn-count 1 yields confidence 3/5 = 0.6. -/
theorem claim1_classifier_matches_spec :
    (∀ q : String, classifyIntent q = classifyIntentSpec q) ∧
    (∀ q : String, covidMatchCount (jsLower q) = 3 → churnMatchCount (jsLower q) = 1 →
      (classifyIntent q).2 = 3/5) := by
  constructor
  · intro q
    rfl
  · intro q h3 h1
    rcases classifyIntent_branches q with ⟨_, heq⟩ | ⟨hle, _, _⟩ | ⟨hm, _, _⟩
    · rw [heq]
      show jsMin _ _ = _
      rw [h3, h1]
      norm_num [jsMin]
    · omega
    · omega

/-- Witness for C1 at a concrete query with covid-count 3 and churn-count 1. -/
theorem claim1_witness : (classifyIntent "covid cases deaths customer").2 = 3/5 :=
  claim1_classifier_matches_spec.2 "covid cases deaths customer" (by decide) (by decide)

/-- C9 counterexample: no query at all reaches confidence exactly one; in
particular the churn-only-keyword extreme claimed to attain 1.0 does not,
since its confidence is n/(n+1). -/
theorem claim9_no_query_reaches_one : ¬ ∃ q : String, (classifyIntent q).2 = 1 := by
  rintro ⟨q, hq⟩
  have hlt := confidence_lt_one q
  rw [hq] at hlt
  exact lt_irrefl 1 hlt

/-- C9 as amended: the returned confidence is strictly below 1.0 for every
query, on the covid branch, the churn branch and the unknown branch alike. -/
theorem claim9_confidence_lt_one (q : String) : (classifyIntent q).2 < 1 :=
  confidence_lt_one q

/-- C10: a covid or churn classification always carries confidence at least
1/3 (covid at least 1/2), which exceeds the 0.3 threshold; hence the
clarification guard of the orchestrator is equivalent to the intent being
unknown, and its confidence half never fires on its own. -/
theorem claim10_threshold_redundant (q : String) :
    ((classifyIntent q).1 ≠ Intent.unknown → 1/3 ≤ (classifyIntent q).2) ∧
    ((classifyIntent q).1 = Intent.covid → 1/2 ≤ (classifyIntent q).2) ∧
    (((classifyIntent q).1 = Intent.unknown ∨ (classifyIntent q).2 < 3/10) ↔
      (classifyIntent q).1 = Intent.unknown) := by
  refine ⟨conf_third q, conf_half q, ?_, fun h => Or.inl h⟩
  rintro (hu | hc)
  · exact hu
  · by_cases hu : (classifyIntent q).1 = Intent.unknown
    · exact hu
    · have h3 := conf_third q hu
      linarith

/-- Witness for C10 at a covid-classified query. -/
theorem claim10_witness :
    (1/3 : ℚ) ≤ (classifyIntent "covid").2 ∧ (1/2 : ℚ) ≤ (classifyIntent "covid").2 :=
  ⟨(claim10_threshold_redundant "covid").1 (by decide),
   (claim10_threshold_redundant "covid").2.1 (by decide)⟩

end SharkHelix

namespace SharkHelix

/-! ### Shared structural lemmas about the pipeline stages -/

/-- The covid extractor performs exactly its one completion call. -/
theorem extractCovid_trace (env : Env) (q : String) :
    (extractCovidParameters env q).2 = [ExtCall.llmCovidExtract] := by
  unfold extractCovidParameters
  cases extractCovidParametersTry env q <;> rfl

/-- The churn extractor performs exactly its one completion call. -/
theorem extractChurn_trace (env : Env) (q : String) :
    (extractChurnParameters env q).2 = [ExtCall.llmChurnExtract] := by
  unfold extractChurnParameters
  cases extractChurnParametersTry env q <;> rfl

/-- The covid gateway performs exactly its one POST. -/
theorem callCovid_trace (env : Env) (ps : ParamSet) :
    (callCovidService env ps).2 = [ExtCall.httpPost (covidPostUrl env) ps 30000] := by
  unfold callCovidService
  cases env.http (covidPostUrl env) ps 30000 <;> rfl

/-- The churn gateway performs exactly its one POST. -/
theorem callChurn_trace (env : Env) (ps : ParamSet) :
    (callChurnService env ps).2 = [ExtCall.httpPost (churnPostUrl env) ps 30000] := by
  unfold callChurnService
  cases env.http (churnPostUrl env) ps 30000 <;> rfl

/-- The synthesizer throws on a primitive prediction body: the in operator
runs before its try clause. -/
theorem synth_prim (env : Env) (i : Intent) (v : JsValue) :
    synthesizeResponse env i (JsTop.prim v) = Except.error () := rfl

/-- On an object prediction the synthesizer always succeeds. -/
theorem synth_out (env : Env) (i : Intent) (pred : ParamSet) :
    ∃ out : String × List ExtCall,
      synthesizeResponse env i (JsTop.obj pred) = Except.ok out := by
  by_cases h : (getField pred "error").isSome = true
  · exact ⟨_, by simp only [synthesizeResponse]; rw [if_pos h]⟩
  · cases hL : env.synthLLM with
    | ok contentOpt => exact ⟨_, by simp only [synthesizeResponse]; rw [if_neg h, hL]⟩
    | error e => exact ⟨_, by simp only [synthesizeResponse]; rw [if_neg h, hL]⟩

/-- A synthesizer success records no HTTP POST: its trace is empty or the
one synthesis completion call. -/
theorem synth_ok_no_post (env : Env) (i : Intent) (p : JsTop)
    (out : String × List ExtCall) (h : synthesizeResponse env i p = Except.ok out) :
    out.2 = [] ∨ out.2 = [ExtCall.llmSynth] := by
  cases p with
  | prim v =>
    rw [synth_prim] at h
    exact Except.noConfusion h
  | obj pred =>
    simp only [synthesizeResponse] at h
    split at h
    · left
      rw [← Except.ok.inj h]
    · cases hL : env.synthLLM with
      | ok contentOpt =>
        rw [hL] at h
        right
        rw [← Except.ok.inj h]
      | error e =>
        rw [hL] at h
        right
        rw [← Except.ok.inj h]

/-- After setField the key is present with the written value. -/
theorem getField_setField_self (ps : ParamSet) (k : String) (v : JsValue) :
    getField (setField ps k v) k = some v := by
  induction ps with
  | nil => simp [setField, getField]
  | cons e rest ih =>
    obtain ⟨a, b⟩ := e
    by_cases ha : a = k
    · simp [setField, getField, ha]
    · simp [setField, getField, ha]
      exact ih

/-- After setField the key is present. -/
theorem getField_setField_isSome (ps : ParamSet) (k : String) (v : JsValue) :
    (getField (setField ps k v) k).isSome = true := by
  rw [getField_setField_self]
  rfl

/-- setField never yields the empty object. -/
theorem setField_ne_nil (ps : ParamSet) (k : String) (v : JsValue) :
    setField ps k v ≠ [] := by
  cases ps with
  | nil => simp [setField]
  | cons e rest =>
    obtain ⟨a, b⟩ := e
    by_cases ha : a = k <;> simp [setField, ha]

/-- The parameters the covid branch posts always carry a country_name. -/
theorem covidDefaulted_country (params : ParamSet) :
    (getField (covidDefaulted params) "country_name").isSome = true := by
  unfold covidDefaulted
  split
  · next h => exact h
  · exact getField_setField_isSome _ _ _

/-- The parameters the covid branch posts are never empty. -/
theorem covidDefaulted_ne_nil (params : ParamSet) : covidDefaulted params ≠ [] := by
  unfold covidDefaulted
  split
  · next h =>
    intro hnil
    rw [hnil] at h
    simp [getField] at h
  · exact setField_ne_nil _ _ _

/-- The parameters the churn branch posts always carry a customer_id. -/
theorem churnDefaulted_customer (env : Env) (params : ParamSet) :
    (getField (churnDefaulted env params) "customer_id").isSome = true := by
  unfold churnDefaulted
  split
  · next h => exact h
  · exact getField_setField_isSome _ _ _

/-- The parameters the churn branch posts are never empty. -/
theorem churnDefaulted_ne_nil (env : Env) (params : ParamSet) :
    churnDefaulted env params ≠ [] := by
  unfold churnDefaulted
  split
  · next h =>
    intro hnil
    rw [hnil] at h
    simp [getField] at h
  · exact setField_ne_nil _ _ _

/-- The guard branch: an unknown or low-confidence classification returns
the fixed clarification with no calls. -/
theorem agentQuery_clarify (env : Env) (q : String)
    (h : (classifyIntent q).1 = Intent.unknown ∨ (classifyIntent q).2 < 3/10) :
    agentQuery env q = (Except.ok clarifyResponse, []) := by
  unfold agentQuery
  rw [if_pos h]

/-- The empty-object-extraction return of the covid branch. -/
theorem agentQuery_covid_empty (env : Env) (q : String)
    (hI : (classifyIntent q).1 = Intent.covid)
    (hobj : (extractCovidParameters env q).1 = JsTop.obj []) :
    agentQuery env q =
      (Except.ok
        { response := covidNeedInfoMessage
          intent := Intent.covid
          confidence := (classifyIntent q).2
          modelUsed := none
          rawPrediction := none }, (extractCovidParameters env q).2) := by
  unfold agentQuery
  rw [if_neg (guard_false q (by rw [hI]; decide)), if_pos hI]
  simp only [hobj]
  rw [if_pos trivial]

/-- The covid branch on a non-empty extracted object when the synthesizer
throws on the prediction body. -/
theorem agentQuery_covid_obj_err (env : Env) (q : String) (params : ParamSet)
    (hI : (classifyIntent q).1 = Intent.covid)
    (hobj : (extractCovidParameters env q).1 = JsTop.obj params)
    (hne : ¬ params = [])
    (hs : synthesizeResponse env Intent.covid
      (callCovidService env (covidDefaulted params)).1 = Except.error ()) :
    agentQuery env q =
      (Except.error (),
        (extractCovidParameters env q).2 ++
          (callCovidService env (covidDefaulted params)).2) := by
  unfold agentQuery
  rw [if_neg (guard_false q (by rw [hI]; decide)), if_pos hI]
  simp only [hobj]
  rw [if_neg hne]
  simp only [hs]

/-- The covid branch on a non-empty extracted object when the synthesizer
succeeds. -/
theorem agentQuery_covid_obj_ok (env : Env) (q : String) (params : ParamSet)
    (out : String × List ExtCall)
    (hI : (classifyIntent q).1 = Intent.covid)
    (hobj : (extractCovidParameters env q).1 = JsTop.obj params)
    (hne : ¬ params = [])
    (hs : synthesizeResponse env Intent.covid
      (callCovidService env (covidDefaulted params)).1 = Except.ok out) :
    agentQuery env q =
      (Except.ok
        { response := out.1
          intent := Intent.covid
          confidence := (classifyIntent q).2
          modelUsed := some "COVID-19 Prediction Model"
          rawPrediction := some (callCovidService env (covidDefaulted params)).1 },
        (extractCovidParameters env q).2 ++
          (callCovidService env (covidDefaulted params)).2 ++ out.2) := by
  unfold agentQuery
  rw [if_neg (guard_false q (by rw [hI]; decide)), if_pos hI]
  simp only [hobj]
  rw [if_neg hne]
  simp only [hs]

/-- A primitive covid extraction that exits at the emptiness guard. -/
theorem agentQuery_covid_prim_exit (env : Env) (q : String) (v : JsValue)
    (hI : (classifyIntent q).1 = Intent.covid)
    (hprim : (extractCovidParameters env q).1 = JsTop.prim v)
    (hg : primExitsGuard v = true) :
    agentQuery env q =
      (Except.ok
        { response := covidNeedInfoMessage
          intent := Intent.covid
          confidence := (classifyIntent q).2
          modelUsed := none
          rawPrediction := none }, (extractCovidParameters env q).2) := by
  unfold agentQuery
  rw [if_neg (guard_false q (by rw [hI]; decide)), if_pos hI]
  simp only [hprim]
  rw [if_pos hg]

/-- A primitive covid extraction that reaches the in operator: the
TypeError escapes the handler. -/
theorem agentQuery_covid_prim_crash (env : Env) (q : String) (v : JsValue)
    (hI : (classifyIntent q).1 = Intent.covid)
    (hprim : (extractCovidParameters env q).1 = JsTop.prim v)
    (hg : ¬ primExitsGuard v = true) :
    agentQuery env q = (Except.error (), (extractCovidParameters env q).2) := by
  unfold agentQuery
  rw [if_neg (guard_false q (by rw [hI]; decide)), if_pos hI]
  simp only [hprim]
  rw [if_neg hg]

/-- The empty-object-extraction return of the churn branch. -/
theorem agentQuery_churn_empty (env : Env) (q : String)
    (hI : (classifyIntent q).1 = Intent.churn)
    (hobj : (extractChurnParameters env q).1 = JsTop.obj []) :
    agentQuery env q =
      (Except.ok
        { response := churnNeedInfoMessage
          intent := Intent.churn
          confidence := (classifyIntent q).2
          modelUsed := none
          rawPrediction := none }, (extractChurnParameters env q).2) := by
  unfold agentQuery
  rw [if_neg (guard_false q (by rw [hI]; decide)), if_neg (by rw [hI]; decide)]
  simp only [hobj]
  rw [if_pos trivial]

/-- The churn branch on a non-empty extracted object when the synthesizer
throws on the prediction body. -/
theorem agentQuery_churn_obj_err (env : Env) (q : String) (params : ParamSet)
    (hI : (classifyIntent q).1 = Intent.churn)
    (hobj : (extractChurnParameters env q).1 = JsTop.obj params)
    (hne : ¬ params = [])
    (hs : synthesizeResponse env Intent.churn
      (callChurnService env (churnDefaulted env params)).1 = Except.error ()) :
    agentQuery env q =
      (Except.error (),
        (extractChurnParameters env q).2 ++
          (callChurnService env (churnDefaulted env params)).2) := by
  unfold agentQuery
  rw [if_neg (guard_false q (by rw [hI]; decide)), if_neg (by rw [hI]; decide)]
  simp only [hobj]
  rw [if_neg hne]
  simp only [hs]

/-- The churn branch on a non-empty extracted object when the synthesizer
succeeds. -/
theorem agentQuery_churn_obj_ok (env : Env) (q : String) (params : ParamSet)
    (out : String × List ExtCall)
    (hI : (classifyIntent q).1 = Intent.churn)
    (hobj : (extractChurnParameters env q).1 = JsTop.obj params)
    (hne : ¬ params = [])
    (hs : synthesizeResponse env Intent.churn
      (callChurnService env (churnDefaulted env params)).1 = Except.ok out) :
    agentQuery env q =
      (Except.ok
        { response := out.1
          intent := Intent.churn
          confidence := (classifyIntent q).2
          modelUsed := some "Churn Prediction Model"
          rawPrediction := some (callChurnService env (churnDefaulted env params)).1 },
        (extractChurnParameters env q).2 ++
          (callChurnService env (churnDefaulted env params)).2 ++ out.2) := by
  unfold agentQuery
  rw [if_neg (guard_false q (by rw [hI]; decide)), if_neg (by rw [hI]; decide)]
  simp only [hobj]
  rw [if_neg hne]
  simp only [hs]

/-- A primitive churn extraction that exits at the emptiness guard. -/
theorem agentQuery_churn_prim_exit (env : Env) (q : String) (v : JsValue)
    (hI : (classifyIntent q).1 = Intent.churn)
    (hprim : (extractChurnParameters env q).1 = JsTop.prim v)
    (hg : primExitsGuard v = true) :
    agentQuery env q =
      (Except.ok
        { response := churnNeedInfoMessage
          intent := Intent.churn
          confidence := (classifyIntent q).2
          modelUsed := none
          rawPrediction := none }, (extractChurnParameters env q).2) := by
  unfold agentQuery
  rw [if_neg (guard_false q (by rw [hI]; decide)), if_neg (by rw [hI]; decide)]
  simp only [hprim]
  rw [if_pos hg]

/-- A primitive churn extraction that reaches the in operator: the
TypeError escapes the handler. -/
theorem agentQuery_churn_prim_crash (env : Env) (q : String) (v : JsValue)
    (hI : (classifyIntent q).1 = Intent.churn)
    (hprim : (extractChurnParameters env q).1 = JsTop.prim v)
    (hg : ¬ primExitsGuard v = true) :
    agentQuery env q = (Except.error (), (extractChurnParameters env q).2) := by
  unfold agentQuery
  rw [if_neg (guard_false q (by rw [hI]; decide)), if_neg (by rw [hI]; decide)]
  simp only [hprim]
  rw [if_neg hg]

/-- An ok outcome of the covid try block is an object whenever the JSON
parser only produces objects. -/
theorem extractCovidTry_ok_obj (env : Env) (q : String)
    (hparse : ∀ s t, env.jsonParse s = Except.ok t → ∃ ps, t = JsTop.obj ps)
    (t : JsTop) (hT : extractCovidParametersTry env q = Except.ok t) :
    ∃ ps, t = JsTop.obj ps := by
  unfold extractCovidParametersTry at hT
  cases hL : env.covidExtractLLM with
  | error e =>
    simp only [hL] at hT
    exact Except.noConfusion hT
  | ok contentOpt =>
    simp only [hL] at hT
    cases hp : env.jsonParse (cleanJsonResponse (contentOpt.getD "\x7b\x7d")) with
    | error e =>
      simp only [hp] at hT
      exact Except.noConfusion hT
    | ok top =>
      cases top with
      | obj params =>
        simp only [hp] at hT
        split at hT
        · cases hm : countryMatch q with
          | some c =>
            rw [hm] at hT
            exact ⟨_, (Except.ok.inj hT).symm⟩
          | none =>
            rw [hm] at hT
            exact ⟨_, (Except.ok.inj hT).symm⟩
        · exact ⟨_, (Except.ok.inj hT).symm⟩
      | prim v =>
        obtain ⟨ps, hcontra⟩ := hparse _ _ hp
        exact JsTop.noConfusion hcontra

/-- Under an object-only JSON parser the covid extractor always returns an
object. -/
theorem extractCovid_obj (env : Env) (q : String)
    (hparse : ∀ s t, env.jsonParse s = Except.ok t → ∃ ps, t = JsTop.obj ps) :
    ∃ ps, (extractCovidParameters env q).1 = JsTop.obj ps := by
  unfold extractCovidParameters
  cases hT : extractCovidParametersTry env q with
  | error e => exact ⟨covidCatchFallback q, rfl⟩
  | ok t =>
    obtain ⟨ps, rfl⟩ := extractCovidTry_ok_obj env q hparse t hT
    exact ⟨ps, rfl⟩

/-- An ok outcome of the churn try block is an object whenever the JSON
parser only produces objects. -/
theorem extractChurnTry_ok_obj (env : Env) (q : String)
    (hparse : ∀ s t, env.jsonParse s = Except.ok t → ∃ ps, t = JsTop.obj ps)
    (t : JsTop) (hT : extractChurnParametersTry env q = Except.ok t) :
    ∃ ps, t = JsTop.obj ps := by
  unfold extractChurnParametersTry at hT
  cases hL : env.churnExtractLLM with
  | error e =>
    simp only [hL] at hT
    exact Except.noConfusion hT
  | ok contentOpt =>
    simp only [hL] at hT
    cases hp : env.jsonParse (cleanJsonResponse (contentOpt.getD "\x7b\x7d")) with
    | error e =>
      simp only [hp] at hT
      exact Except.noConfusion hT
    | ok top =>
      cases top with
      | obj params =>
        simp only [hp] at hT
        exact ⟨_, (Except.ok.inj hT).symm⟩
      | prim v =>
        obtain ⟨ps, hcontra⟩ := hparse _ _ hp
        exact JsTop.noConfusion hcontra

/-- Under an object-only JSON parser the churn extractor always returns an
object. -/
theorem extractChurn_obj (env : Env) (q : String)
    (hparse : ∀ s t, env.jsonParse s = Except.ok t → ∃ ps, t = JsTop.obj ps) :
    ∃ ps, (extractChurnParameters env q).1 = JsTop.obj ps := by
  unfold extractChurnParameters
  cases hT : extractChurnParametersTry env q with
  | error e => exact ⟨churnCatchFallback q, rfl⟩
  | ok t =>
    obtain ⟨ps, rfl⟩ := extractChurnTry_ok_obj env q hparse t hT
    exact ⟨ps, rfl⟩

/-- Under an object-only HTTP client the covid gateway always returns an
object: the body on success is one, and the failure object is fixed. -/
theorem callCovid_obj (env : Env) (b : ParamSet)
    (hhttp : ∀ u bd tm t, env.http u bd tm = Except.ok t → ∃ ps, t = JsTop.obj ps) :
    ∃ ps, (callCovidService env b).1 = JsTop.obj ps := by
  unfold callCovidService
  cases hh : env.http (covidPostUrl env) b 30000 with
  | error e => exact ⟨_, rfl⟩
  | ok data =>
    obtain ⟨ps, rfl⟩ := hhttp _ _ _ _ hh
    exact ⟨ps, rfl⟩

/-- Under an object-only HTTP client the churn gateway always returns an
object. -/
theorem callChurn_obj (env : Env) (b : ParamSet)
    (hhttp : ∀ u bd tm t, env.http u bd tm = Except.ok t → ∃ ps, t = JsTop.obj ps) :
    ∃ ps, (callChurnService env b).1 = JsTop.obj ps := by
  unfold callChurnService
  cases hh : env.http (churnPostUrl env) b 30000 with
  | error e => exact ⟨_, rfl⟩
  | ok data =>
    obtain ⟨ps, rfl⟩ := hhttp _ _ _ _ hh
    exact ⟨ps, rfl⟩

end SharkHelix

namespace SharkHelix

/-- C5: for every environment and every ParameterSet, each gateway function
issues exactly one POST, to its fixed endpoint path on the configured base
URL, with a 30000 ms timeout; it returns the parsed body on success and the
fixed single-field error object on any failure, and (being a total
function) never raises to the caller. -/
theorem claim5_gateway_contract (env : Env) (ps : ParamSet) :
    ((callCovidService env ps).2 = [ExtCall.httpPost (covidPostUrl env) ps 30000] ∧
      (∀ data, env.http (covidPostUrl env) ps 30000 = Except.ok data →
        (callCovidService env ps).1 = data) ∧
      (∀ e, env.http (covidPostUrl env) ps 30000 = Except.error e →
        (callCovidService env ps).1 =
          JsTop.obj [("error", JsValue.str "Failed to get COVID prediction")])) ∧
    ((callChurnService env ps).2 = [ExtCall.httpPost (churnPostUrl env) ps 30000] ∧
      (∀ data, env.http (churnPostUrl env) ps 30000 = Except.ok data →
        (callChurnService env ps).1 = data) ∧
      (∀ e, env.http (churnPostUrl env) ps 30000 = Except.error e →
        (callChurnService env ps).1 =
          JsTop.obj [("error", JsValue.str "Failed to get churn prediction")])) := by
  refine ⟨⟨callCovid_trace env ps, ?_, ?_⟩, ⟨callChurn_trace env ps, ?_, ?_⟩⟩
  · intro data hd
    unfold callCovidService
    rw [hd]
  · intro e he
    unfold callCovidService
    rw [he]
  · intro data hd
    unfold callChurnService
    rw [hd]
  · intro e he
    unfold callChurnService
    rw [he]

/-- Witness for C5: the failure shape at the all-failing environment, the
success shape at the HTTP-succeeding environment, and the evaluated default
URL, path and timeout of the recorded POST. -/
theorem claim5_witness :
    (callCovidService envAllFail []).1 =
        JsTop.obj [("error", JsValue.str "Failed to get COVID prediction")] ∧
      (callChurnService envAllFail []).1 =
        JsTop.obj [("error", JsValue.str "Failed to get churn prediction")] ∧
      (callCovidService envHttpOk []).1 = JsTop.obj [] ∧
      (callCovidService envAllFail []).2 =
        [ExtCall.httpPost "http://localhost:8000/predict/covid" [] 30000] := by
  refine ⟨(claim5_gateway_contract envAllFail []).1.2.2 () rfl,
    (claim5_gateway_contract envAllFail []).2.2.2 () rfl,
    (claim5_gateway_contract envHttpOk []).1.2.1 (JsTop.obj []) rfl, ?_⟩
  rw [(claim5_gateway_contract envAllFail []).1.1]
  decide

end SharkHelix

namespace SharkHelix

/-- C6: for every PredictionResult object carrying an error field the
synthesizer returns the templated error string with an empty call trace (no
completion call); and end to end, when the classifier picks covid, the
extractor yields a non-empty object, and every POST to the covid endpoint
fails, the returned AgentResponse text is exactly the templated covid
failure message and no synthesis completion call appears in the trace. -/
theorem claim6_synth_error_short_circuit :
    (∀ (env : Env) (i : Intent) (pred : ParamSet) (v : JsValue),
      getField pred "error" = some v →
      synthesizeResponse env i (JsTop.obj pred) =
        Except.ok ("I encountered an error: " ++ jsDisplay v, [])) ∧
    (∀ (env : Env) (q : String) (params : ParamSet),
      (classifyIntent q).1 = Intent.covid →
      (∀ ps, env.http (covidPostUrl env) ps 30000 = Except.error ()) →
      (extractCovidParameters env q).1 = JsTop.obj params →
      params ≠ [] →
      (agentQuery env q).1 = Except.ok
        { response := "I encountered an error: Failed to get COVID prediction"
          intent := Intent.covid
          confidence := (classifyIntent q).2
          modelUsed := some "COVID-19 Prediction Model"
          rawPrediction := some (JsTop.obj
            [("error", JsValue.str "Failed to get COVID prediction")]) } ∧
      ExtCall.llmSynth ∉ (agentQuery env q).2) := by
  constructor
  · intro env i pred v hv
    simp only [synthesizeResponse]
    rw [hv]
    rfl
  · intro env q params hI hhttp hobj hne
    have hcall : callCovidService env (covidDefaulted params) =
        (JsTop.obj [("error", JsValue.str "Failed to get COVID prediction")],
          [ExtCall.httpPost (covidPostUrl env) (covidDefaulted params) 30000]) := by
      unfold callCovidService
      rw [hhttp (covidDefaulted params)]
    have hs : synthesizeResponse env Intent.covid
        (callCovidService env (covidDefaulted params)).1 =
        Except.ok ("I encountered an error: Failed to get COVID prediction", []) := by
      rw [hcall]
      rfl
    have hq := agentQuery_covid_obj_ok env q params
      ("I encountered an error: Failed to get COVID prediction", []) hI hobj hne hs
    rw [hq]
    constructor
    · rw [hcall]
    · rw [extractCovid_trace, hcall]
      simp

/-- Witness for C6: the short-circuit at a concrete error object, and the
end-to-end covid timeout scenario in the stub environment. -/
theorem claim6_witness :
    synthesizeResponse envAllFail Intent.covid (JsTop.obj [("error", JsValue.str "boom")]) =
        Except.ok ("I encountered an error: " ++ jsDisplay (JsValue.str "boom"), []) ∧
      (agentQuery envStub "covid").1 = Except.ok
        { response := "I encountered an error: Failed to get COVID prediction"
          intent := Intent.covid
          confidence := (classifyIntent "covid").2
          modelUsed := some "COVID-19 Prediction Model"
          rawPrediction := some (JsTop.obj
            [("error", JsValue.str "Failed to get COVID prediction")]) } ∧
      ExtCall.llmSynth ∉ (agentQuery envStub "covid").2 :=
  ⟨claim6_synth_error_short_circuit.1 envAllFail Intent.covid
      [("error", JsValue.str "boom")] (JsValue.str "boom") rfl,
    claim6_synth_error_short_circuit.2 envStub "covid"
      [("country_name", JsValue.str "France")] (by decide) (fun ps => rfl)
      (by decide) (by decide)⟩

/-- C7: at the failing input, with the completion call throwing, the churn
regex fallback alone yields tenure_months = 24 and monthly_charges = 24,
not 85: since the dollar sign of the charges regex is optional and its
suffix group can match empty, its leftmost match in the query is the first
number 24, the tenure value. -/
theorem claim7_regex_fallback_eval :
    (extractChurnParameters envAllFail
        "customer with 24 months tenure paying $85 monthly").1 =
      JsTop.obj
        [("tenure_months", JsValue.num 24), ("monthly_charges", JsValue.num 24)] := by
  decide

/-- C8: for every environment whose covid-extraction completion call
throws, the covid extractor on the query COVID in USA falls back to the
fixed alias alternation, whose first and leftmost word-bounded hit is USA,
and returns exactly a country_name of USA. -/
theorem claim8_country_fallback (env : Env)
    (h : env.covidExtractLLM = Except.error ()) :
    (extractCovidParameters env "COVID in USA").1 =
      JsTop.obj [("country_name", JsValue.str "USA")] := by
  have ht : extractCovidParametersTry env "COVID in USA" = Except.error () := by
    unfold extractCovidParametersTry
    rw [h]
  unfold extractCovidParameters
  rw [ht]
  decide

/-- Witness for C8 in the all-failing environment. -/
theorem claim8_witness :
    (extractCovidParameters envAllFail "COVID in USA").1 =
      JsTop.obj [("country_name", JsValue.str "USA")] :=
  claim8_country_fallback envAllFail rfl

end SharkHelix

namespace SharkHelix

/-- C4: every POST recorded in a request trace carries a non-empty
ParameterSet, with a country_name field when the query classified covid and
a customer_id field when it classified churn (each defaulted upstream when
the extractor produced none); and an empty extraction object instead
returns the intent-specific need-more-information response with no POST in
the trace. -/
theorem claim4_gateway_params_invariant (env : Env) (q : String) :
    (∀ (url : String) (ps : ParamSet) (t : ℕ),
      ExtCall.httpPost url ps t ∈ (agentQuery env q).2 →
      ps ≠ [] ∧
      ((classifyIntent q).1 = Intent.covid → (getField ps "country_name").isSome = true) ∧
      ((classifyIntent q).1 = Intent.churn → (getField ps "customer_id").isSome = true)) ∧
    ((classifyIntent q).1 = Intent.covid →
      (extractCovidParameters env q).1 = JsTop.obj [] →
      (agentQuery env q).1 = Except.ok
        { response := covidNeedInfoMessage
          intent := Intent.covid
          confidence := (classifyIntent q).2
          modelUsed := none
          rawPrediction := none } ∧
      ∀ (url : String) (ps : ParamSet) (t : ℕ),
        ExtCall.httpPost url ps t ∉ (agentQuery env q).2) ∧
    ((classifyIntent q).1 = Intent.churn →
      (extractChurnParameters env q).1 = JsTop.obj [] →
      (agentQuery env q).1 = Except.ok
        { response := churnNeedInfoMessage
          intent := Intent.churn
          confidence := (classifyIntent q).2
          modelUsed := none
          rawPrediction := none } ∧
      ∀ (url : String) (ps : ParamSet) (t : ℕ),
        ExtCall.httpPost url ps t ∉ (agentQuery env q).2) := by
  cases hI : (classifyIntent q).1 with
  | unknown =>
    have hq := agentQuery_clarify env q (Or.inl hI)
    refine ⟨?_, ?_, ?_⟩
    · intro url ps t hmem
      rw [hq] at hmem
      simp at hmem
    · intro hc
      exact absurd hc (by decide)
    · intro hc
      exact absurd hc (by decide)
  | covid =>
    cases hx : (extractCovidParameters env q).1 with
    | prim v =>
      have htr : (agentQuery env q).2 = (extractCovidParameters env q).2 := by
        by_cases hg : primExitsGuard v = true
        · rw [agentQuery_covid_prim_exit env q v hI hx hg]
        · rw [agentQuery_covid_prim_crash env q v hI hx hg]
      refine ⟨?_, ?_, ?_⟩
      · intro url ps t hmem
        rw [htr, extractCovid_trace] at hmem
        simp at hmem
      · intro _ hobj
        exact JsTop.noConfusion hobj
      · intro hc
        exact absurd hc (by decide)
    | obj params =>
      by_cases hne : params = []
      · subst hne
        have hq := agentQuery_covid_empty env q hI hx
        refine ⟨?_, ?_, ?_⟩
        · intro url ps t hmem
          rw [hq, extractCovid_trace] at hmem
          simp at hmem
        · intro _ _
          rw [hq]
          refine ⟨rfl, ?_⟩
          intro url ps t hmem
          rw [extractCovid_trace] at hmem
          simp at hmem
        · intro hc
          exact absurd hc (by decide)
      · have htr : (agentQuery env q).2 =
            (extractCovidParameters env q).2 ++
              (callCovidService env (covidDefaulted params)).2 ++
              (match synthesizeResponse env Intent.covid
                  (callCovidService env (covidDefaulted params)).1 with
                | Except.error _ => []
                | Except.ok out => out.2) := by
          cases hsyn : synthesizeResponse env Intent.covid
              (callCovidService env (covidDefaulted params)).1 with
          | error e =>
            cases e
            rw [agentQuery_covid_obj_err env q params hI hx hne hsyn]
            simp
          | ok out =>
            rw [agentQuery_covid_obj_ok env q params out hI hx hne hsyn]
        refine ⟨?_, ?_, ?_⟩
        · intro url ps t hmem
          rw [htr, extractCovid_trace, callCovid_trace] at hmem
          rcases List.mem_append.mp hmem with hmem1 | hmem2
          · rcases List.mem_append.mp hmem1 with hmem0 | hmemP
            · simp at hmem0
            · simp at hmemP
              obtain ⟨hu, hp, ht⟩ := hmemP
              subst hp
              exact ⟨covidDefaulted_ne_nil params,
                fun _ => covidDefaulted_country params,
                fun hc => absurd hc (by decide)⟩
          · exfalso
            cases hsyn : synthesizeResponse env Intent.covid
                (callCovidService env (covidDefaulted params)).1 with
            | error e =>
              rw [hsyn] at hmem2
              have hmem3 : ExtCall.httpPost url ps t ∈ ([] : List ExtCall) := hmem2
              simp at hmem3
            | ok out =>
              rw [hsyn] at hmem2
              have hmem3 : ExtCall.httpPost url ps t ∈ out.2 := hmem2
              rcases synth_ok_no_post env Intent.covid _ out hsyn with h0 | h0 <;>
                rw [h0] at hmem3 <;> simp at hmem3
        · intro _ hobj
          injection hobj with h2
          exact absurd h2 hne
        · intro hc
          exact absurd hc (by decide)
  | churn =>
    cases hx : (extractChurnParameters env q).1 with
    | prim v =>
      have htr : (agentQuery env q).2 = (extractChurnParameters env q).2 := by
        by_cases hg : primExitsGuard v = true
        · rw [agentQuery_churn_prim_exit env q v hI hx hg]
        · rw [agentQuery_churn_prim_crash env q v hI hx hg]
      refine ⟨?_, ?_, ?_⟩
      · intro url ps t hmem
        rw [htr, extractChurn_trace] at hmem
        simp at hmem
      · intro hc
        exact absurd hc (by decide)
      · intro _ hobj
        exact JsTop.noConfusion hobj
    | obj params =>
      by_cases hne : params = []
      · subst hne
        have hq := agentQuery_churn_empty env q hI hx
        refine ⟨?_, ?_, ?_⟩
        · intro url ps t hmem
          rw [hq, extractChurn_trace] at hmem
          simp at hmem
        · intro hc
          exact absurd hc (by decide)
        · intro _ _
          rw [hq]
          refine ⟨rfl, ?_⟩
          intro url ps t hmem
          rw [extractChurn_trace] at hmem
          simp at hmem
      · have htr : (agentQuery env q).2 =
            (extractChurnParameters env q).2 ++
              (callChurnService env (churnDefaulted env params)).2 ++
              (match synthesizeResponse env Intent.churn
                  (callChurnService env (churnDefaulted env params)).1 with
                | Except.error _ => []
                | Except.ok out => out.2) := by
          cases hsyn : synthesizeResponse env Intent.churn
              (callChurnService env (churnDefaulted env params)).1 with
          | error e =>
            cases e
            rw [agentQuery_churn_obj_err env q params hI hx hne hsyn]
            simp
          | ok out =>
            rw [agentQuery_churn_obj_ok env q params out hI hx hne hsyn]
        refine ⟨?_, ?_, ?_⟩
        · intro url ps t hmem
          rw [htr, extractChurn_trace, callChurn_trace] at hmem
          rcases List.mem_append.mp hmem with hmem1 | hmem2
          · rcases List.mem_append.mp hmem1 with hmem0 | hmemP
            · simp at hmem0
            · simp at hmemP
              obtain ⟨hu, hp, ht⟩ := hmemP
              subst hp
              exact ⟨churnDefaulted_ne_nil env params,
                fun hc => absurd hc (by decide),
                fun _ => churnDefaulted_customer env params⟩
          · exfalso
            cases hsyn : synthesizeResponse env Intent.churn
                (callChurnService env (churnDefaulted env params)).1 with
            | error e =>
              rw [hsyn] at hmem2
              have hmem3 : ExtCall.httpPost url ps t ∈ ([] : List ExtCall) := hmem2
              simp at hmem3
            | ok out =>
              rw [hsyn] at hmem2
              have hmem3 : ExtCall.httpPost url ps t ∈ out.2 := hmem2
              rcases synth_ok_no_post env Intent.churn _ out hsyn with h0 | h0 <;>
                rw [h0] at hmem3 <;> simp at hmem3
        · intro hc
          exact absurd hc (by decide)
        · intro _ hobj
          injection hobj with h2
          exact absurd h2 hne

end SharkHelix

namespace SharkHelix

/-- Witness for C4: the posted parameters of a concrete covid request and a
concrete churn request (the latter with the generated GUEST identifier),
and the need-more-information responses of concrete empty-extraction
requests of both intents. -/
theorem claim4_witness :
    (([("country_name", JsValue.str "France")] : ParamSet) ≠ [] ∧
      (getField [("country_name", JsValue.str "France")] "country_name").isSome = true) ∧
    (getField [("country_name", JsValue.str "France"),
        ("customer_id", JsValue.str "GUEST_0")] "customer_id").isSome = true ∧
    (agentQuery envAllFail "covid").1 = Except.ok
      { response := covidNeedInfoMessage
        intent := Intent.covid
        confidence := (classifyIntent "covid").2
        modelUsed := none
        rawPrediction := none } ∧
    (agentQuery envAllFail "churn").1 = Except.ok
      { response := churnNeedInfoMessage
        intent := Intent.churn
        confidence := (classifyIntent "churn").2
        modelUsed := none
        rawPrediction := none } := by
  have hq1 := agentQuery_covid_obj_ok envStub "covid"
    [("country_name", JsValue.str "France")]
    ("I encountered an error: Failed to get COVID prediction", [])
    (by decide) (by decide) (by decide) rfl
  have hmem1 : ExtCall.httpPost "http://localhost:8000/predict/covid"
      [("country_name", JsValue.str "France")] 30000 ∈ (agentQuery envStub "covid").2 := by
    rw [hq1]
    decide
  have h1 := (claim4_gateway_params_invariant envStub "covid").1 _ _ _ hmem1
  have hq2 := agentQuery_churn_obj_ok envStub "churn"
    [("country_name", JsValue.str "France")]
    ("I encountered an error: Failed to get churn prediction", [])
    (by decide) (by decide) (by decide) rfl
  have hmem2 : ExtCall.httpPost "http://localhost:8001/predict/churn"
      [("country_name", JsValue.str "France"), ("customer_id", JsValue.str "GUEST_0")]
      30000 ∈ (agentQuery envStub "churn").2 := by
    rw [hq2]
    decide
  have h2 := (claim4_gateway_params_invariant envStub "churn").1 _ _ _ hmem2
  have h3 := (claim4_gateway_params_invariant envAllFail "covid").2.1 (by decide) (by decide)
  have h4 := (claim4_gateway_params_invariant envAllFail "churn").2.2 (by decide) (by decide)
  exact ⟨⟨h1.1, h1.2.1 (by decide)⟩, h2.2.2 (by decide), h3.1, h4.1⟩

end SharkHelix

namespace SharkHelix

/-- C2 counterexample: with the completion call answering and the JSON
parse yielding the top-level string x, a covid query with no country alias
reaches the in operator applied to a string primitive, whose TypeError
escapes the handler: the endpoint returns an error for a non-empty query. -/
theorem claim2_exception_escapes :
    "covid" ≠ "" ∧ agentQueryEndpoint envPrimStr "covid" = Except.error () := by
  constructor
  · decide
  · have hc := agentQuery_covid_prim_crash envPrimStr "covid" (JsValue.str "x")
      (by decide) (by decide) (by decide)
    unfold agentQueryEndpoint
    rw [if_neg (by decide), hc]

/-- C2 as amended: for every non-empty query and every behavior of the
external services in which each successful JSON parse and each successful
prediction response is a JSON object (throwing, timing out, and arbitrary
object data remain unrestricted), the endpoint returns exactly one
AgentResponse with its call trace and never an error; a top-level
non-object JSON result instead reaches the in operator, whose TypeError
escapes uncaught, as the counterexample shows. -/
theorem claim2_query_total (env : Env) (q : String) (hq : q ≠ "")
    (hparse : ∀ s t, env.jsonParse s = Except.ok t → ∃ ps, t = JsTop.obj ps)
    (hhttp : ∀ u b tm t, env.http u b tm = Except.ok t → ∃ ps, t = JsTop.obj ps) :
    ∃ r : AgentResponse, ∃ calls : List ExtCall,
      agentQueryEndpoint env q = Except.ok (r, calls) := by
  suffices h : ∃ r calls, agentQuery env q = (Except.ok r, calls) by
    obtain ⟨r, calls, hr⟩ := h
    refine ⟨r, calls, ?_⟩
    unfold agentQueryEndpoint
    rw [if_neg hq, hr]
  cases hI : (classifyIntent q).1 with
  | unknown =>
    exact ⟨_, _, agentQuery_clarify env q (Or.inl hI)⟩
  | covid =>
    obtain ⟨params, hobj⟩ := extractCovid_obj env q hparse
    by_cases hne : params = []
    · subst hne
      exact ⟨_, _, agentQuery_covid_empty env q hI hobj⟩
    · obtain ⟨ps2, hpred⟩ := callCovid_obj env (covidDefaulted params) hhttp
      obtain ⟨out, hs⟩ := synth_out env Intent.covid ps2
      rw [← hpred] at hs
      exact ⟨_, _, agentQuery_covid_obj_ok env q params out hI hobj hne hs⟩
  | churn =>
    obtain ⟨params, hobj⟩ := extractChurn_obj env q hparse
    by_cases hne : params = []
    · subst hne
      exact ⟨_, _, agentQuery_churn_empty env q hI hobj⟩
    · obtain ⟨ps2, hpred⟩ := callChurn_obj env (churnDefaulted env params) hhttp
      obtain ⟨out, hs⟩ := synth_out env Intent.churn ps2
      rw [← hpred] at hs
      exact ⟨_, _, agentQuery_churn_obj_ok env q params out hI hobj hne hs⟩

/-- Witness for C2 at the stub environment, whose parse and HTTP behaviors
only produce objects. -/
theorem claim2_witness :
    ∃ r : AgentResponse, ∃ calls : List ExtCall,
      agentQueryEndpoint envStub "covid" = Except.ok (r, calls) :=
  claim2_query_total envStub "covid" (by decide)
    (fun s t h => ⟨[("country_name", JsValue.str "France")], (Except.ok.inj h).symm⟩)
    (fun u b tm t h => Except.noConfusion h)

/-- C3: whenever the classifier returns unknown or a confidence below 0.3,
the orchestrator returns the fixed clarification response with intent
unknown and confidence 0, and the external-call trace is empty: no
extractor, gateway or synthesizer call is made. -/
theorem claim3_clarify_short_circuit (env : Env) (q : String)
    (h : (classifyIntent q).1 = Intent.unknown ∨ (classifyIntent q).2 < 3/10) :
    agentQuery env q = (Except.ok clarifyResponse, []) :=
  agentQuery_clarify env q h

/-- Witness for C3 at a query matching no keyword, in the all-failing
environment. -/
theorem claim3_witness :
    agentQuery envAllFail "hello" = (Except.ok clarifyResponse, []) :=
  claim3_clarify_short_circuit envAllFail "hello" (Or.inl (by decide))

end SharkHelix
